import Mathlib

/-!
Verification of the TicTacToe contract (`contracts/TicTacToe.sol`).

The contract is shallowly embedded: addresses are natural numbers with `0`
playing the role of `address(0)`, contract storage is an explicit record
threaded through each call, and a Solidity `revert` is an `Except.error`
result (the execution environment applies a call's mutations only when the
call succeeds, so an errored call leaves storage untouched).
-/

namespace TicTacToe

/-- Addresses (identities).  `0` models `address(0)`, the unset sentinel. -/
abbrev Addr := Nat

/-- `enum CellState { Empty, X, O }`. -/
inductive CellState
  | Empty
  | X
  | O
deriving DecidableEq, Repr

/-- `enum GameState { WaitingForPlayer, InProgress, Finished, Draw }`. -/
inductive GameState
  | WaitingForPlayer
  | InProgress
  | Finished
  | Draw
deriving DecidableEq, Repr

/-- `CellState[9] board` — the 3x3 board as a 1D array.  Only indices
`0..8` are ever read or written. -/
abbrev Board := Nat → CellState

/-- `struct Game`. -/
structure Game where
  player1 : Addr
  player2 : Addr
  board : Board
  currentTurn : Addr
  winner : Addr
  state : GameState
  createdAt : Nat
  lastMoveAt : Nat

/-- The all-zero `Game`: Solidity mapping default (enum value `0` is
`WaitingForPlayer` for the state and `Empty` for every cell). -/
def Game.zero : Game :=
  { player1 := 0, player2 := 0, board := fun _ => CellState.Empty,
    currentTurn := 0, winner := 0, state := GameState.WaitingForPlayer,
    createdAt := 0, lastMoveAt := 0 }

/-- Contract storage. -/
structure SysState where
  gameCounter : Nat
  tokenIdCounter : Nat
  games : Nat → Game
  playerGames : Addr → List Nat
  playerWins : Addr → Nat
  playerGamesPlayed : Addr → Nat
  nftOwner : Nat → Addr

/-- Storage right after the constructor ran: both counters zero, every
mapping at its default value. -/
def initState : SysState :=
  { gameCounter := 0, tokenIdCounter := 0, games := fun _ => Game.zero,
    playerGames := fun _ => [], playerWins := fun _ => 0,
    playerGamesPlayed := fun _ => 0, nftOwner := fun _ => 0 }

/-- The contract's events. -/
inductive Event
  | GameCreated (gameId : Nat) (player1 : Addr)
  | GameJoined (gameId : Nat) (player2 : Addr)
  | MoveMade (gameId : Nat) (player : Addr) (position : Nat)
  | GameWon (gameId : Nat) (winner : Addr)
  | GameDraw (gameId : Nat)
  | WinnerNFTMinted (tokenId : Nat) (winner : Addr) (gameId : Nat)
deriving DecidableEq, Repr

/-- The contract's custom errors. -/
inductive Err
  | GameNotFound
  | GameNotWaitingForPlayer
  | GameNotInProgress
  | CannotJoinOwnGame
  | NotYourTurn
  | InvalidPosition
  | CellNotEmpty
  | NotAPlayer
  | GameAlreadyFinished
deriving DecidableEq, Repr

/-- Per-call execution context supplied by the EVM: `msg.sender` and
`block.timestamp`. -/
structure Env where
  sender : Addr
  timestamp : Nat

/-- `_checkWinner(board, mark)`: the eight hard-coded row/column/diagonal
checks, in source order. -/
def _checkWinner (board : Board) (mark : CellState) : Prop :=
  (board 0 = mark ∧ board 1 = mark ∧ board 2 = mark) ∨
  (board 3 = mark ∧ board 4 = mark ∧ board 5 = mark) ∨
  (board 6 = mark ∧ board 7 = mark ∧ board 8 = mark) ∨
  (board 0 = mark ∧ board 3 = mark ∧ board 6 = mark) ∨
  (board 1 = mark ∧ board 4 = mark ∧ board 7 = mark) ∨
  (board 2 = mark ∧ board 5 = mark ∧ board 8 = mark) ∨
  (board 0 = mark ∧ board 4 = mark ∧ board 8 = mark) ∨
  (board 2 = mark ∧ board 4 = mark ∧ board 6 = mark)

instance (board : Board) (mark : CellState) : Decidable (_checkWinner board mark) := by
  unfold _checkWinner; infer_instance

/-- `_isBoardFull(board)`: no cell among `0..8` is `Empty`. -/
def _isBoardFull (board : Board) : Prop :=
  ∀ i < 9, board i ≠ CellState.Empty

instance (board : Board) : Decidable (_isBoardFull board) := by
  unfold _isBoardFull; infer_instance

/-- The mark a participant plays: `player1` plays `X`, the other
participant plays `O` (line 163 of the contract). -/
def markOf (g : Game) (a : Addr) : CellState :=
  if a = g.player1 then CellState.X else CellState.O

/-- The board after an accepted move: the caller's mark placed at
`position` (line 164 of the contract). -/
def moveBoard (env : Env) (s : SysState) (gameId position : Nat) : Board :=
  fun i => if i = position then markOf (s.games gameId) env.sender
           else (s.games gameId).board i

/-- Storage after an accepted winning `makeMove`: the game record gets
the new board, timestamp, winner and `Finished` state; the caller's win
counter is bumped and the next NFT is minted to the caller. -/
def winState (env : Env) (s : SysState) (gameId position : Nat) : SysState :=
  { s with
    games := fun g =>
      if g = gameId then
        { s.games gameId with
          board := moveBoard env s gameId position, lastMoveAt := env.timestamp,
          winner := env.sender, state := GameState.Finished }
      else s.games g,
    playerWins := fun a =>
      if a = env.sender then s.playerWins env.sender + 1 else s.playerWins a,
    tokenIdCounter := s.tokenIdCounter + 1,
    nftOwner := fun t => if t = s.tokenIdCounter then env.sender else s.nftOwner t }

/-- Events of a winning `makeMove`. -/
def winEvents (env : Env) (s : SysState) (gameId position : Nat) : List Event :=
  [Event.MoveMade gameId env.sender position,
   Event.WinnerNFTMinted s.tokenIdCounter env.sender gameId,
   Event.GameWon gameId env.sender]

/-- Storage after an accepted drawing `makeMove`. -/
def drawState (env : Env) (s : SysState) (gameId position : Nat) : SysState :=
  { s with
    games := fun g =>
      if g = gameId then
        { s.games gameId with
          board := moveBoard env s gameId position, lastMoveAt := env.timestamp,
          state := GameState.Draw }
      else s.games g }

/-- Storage after an accepted non-terminal `makeMove`: the turn passes
to the other participant. -/
def switchState (env : Env) (s : SysState) (gameId position : Nat) : SysState :=
  { s with
    games := fun g =>
      if g = gameId then
        { s.games gameId with
          board := moveBoard env s gameId position, lastMoveAt := env.timestamp,
          currentTurn :=
            if env.sender = (s.games gameId).player1 then (s.games gameId).player2
            else (s.games gameId).player1 }
      else s.games g }

/-- The `playerGamesPlayed` mapping after a successful join: first the
creator's counter is bumped, then the joiner's. -/
def joinPlayed (env : Env) (s : SysState) (gameId : Nat) : Addr → Nat :=
  let pg1 := fun a =>
    if a = (s.games gameId).player1 then s.playerGamesPlayed (s.games gameId).player1 + 1
    else s.playerGamesPlayed a
  fun a => if a = env.sender then pg1 env.sender + 1 else pg1 a

/-- Storage after a successful `joinGame`. -/
def joinState (env : Env) (s : SysState) (gameId : Nat) : SysState :=
  { s with
    games := fun g =>
      if g = gameId then
        { s.games gameId with
          player2 := env.sender, state := GameState.InProgress,
          lastMoveAt := env.timestamp }
      else s.games g,
    playerGames := fun a =>
      if a = env.sender then s.playerGames env.sender ++ [gameId] else s.playerGames a,
    playerGamesPlayed := joinPlayed env s gameId }

/-- The new game record written by `createGame`. -/
def createdGame (env : Env) : Game :=
  { player1 := env.sender, player2 := 0, board := fun _ => CellState.Empty,
    currentTurn := env.sender, winner := 0, state := GameState.WaitingForPlayer,
    createdAt := env.timestamp, lastMoveAt := env.timestamp }

/-- Storage after `createGame`. -/
def createState (env : Env) (s : SysState) : SysState :=
  { s with
    gameCounter := s.gameCounter + 1,
    games := fun g => if g = s.gameCounter then createdGame env else s.games g,
    playerGames := fun a =>
      if a = env.sender then s.playerGames env.sender ++ [s.gameCounter]
      else s.playerGames a }

/-- `createGame()`: allocates `gameCounter++`, writes the fresh record,
registers the id under the caller and emits `GameCreated`.  Never fails. -/
def createGame (env : Env) (s : SysState) : SysState × Nat × List Event :=
  (createState env s, s.gameCounter, [Event.GameCreated s.gameCounter env.sender])

/-- `joinGame(gameId)`: the three reverts in source order, then the
mutations (the two `playerGamesPlayed` increments are sequential). -/
def joinGame (env : Env) (s : SysState) (gameId : Nat) : Except Err (SysState × List Event) :=
  let game := s.games gameId
  if game.player1 = 0 then Except.error Err.GameNotFound
  else if game.state ≠ GameState.WaitingForPlayer then Except.error Err.GameNotWaitingForPlayer
  else if game.player1 = env.sender then Except.error Err.CannotJoinOwnGame
  else Except.ok (joinState env s gameId, [Event.GameJoined gameId env.sender])

/-- `makeMove(gameId, position)`: the seven reverts in source order
(including the unreachable `GameAlreadyFinished` check on line 156),
then mark placement and the win / draw / switch-turn branch.  All field
assignments to `games[gameId]` are collapsed into one record write per
branch. -/
def makeMove (env : Env) (s : SysState) (gameId : Nat) (position : Nat) :
    Except Err (SysState × List Event) :=
  let game := s.games gameId
  if game.player1 = 0 then Except.error Err.GameNotFound
  else if game.state ≠ GameState.InProgress then Except.error Err.GameNotInProgress
  else if game.state = GameState.Finished then Except.error Err.GameAlreadyFinished
  else if env.sender ≠ game.player1 ∧ env.sender ≠ game.player2 then Except.error Err.NotAPlayer
  else if env.sender ≠ game.currentTurn then Except.error Err.NotYourTurn
  else if 9 ≤ position then Except.error Err.InvalidPosition
  else if game.board position ≠ CellState.Empty then Except.error Err.CellNotEmpty
  else if _checkWinner (moveBoard env s gameId position) (markOf game env.sender) then
    Except.ok (winState env s gameId position, winEvents env s gameId position)
  else if _isBoardFull (moveBoard env s gameId position) then
    Except.ok (drawState env s gameId position,
      [Event.MoveMade gameId env.sender position, Event.GameDraw gameId])
  else
    Except.ok (switchState env s gameId position,
      [Event.MoveMade gameId env.sender position])

/-- The tuple of fields `getGame(gameId)` returns. -/
structure GameView where
  player1 : Addr
  player2 : Addr
  board : Board
  currentTurn : Addr
  winner : Addr
  state : GameState

/-- `getGame(gameId)`: an unconditional read of the record's fields. -/
def getGame (s : SysState) (gameId : Nat) : GameView :=
  let game := s.games gameId
  { player1 := game.player1, player2 := game.player2, board := game.board,
    currentTurn := game.currentTurn, winner := game.winner, state := game.state }

/-- The Registry read with the spec's `Game | NotFound` result.  The
contract marks a missing record by the zero sentinel in `player1` —
exactly the test `game.player1 == address(0)` that `joinGame` (line 131)
and `makeMove` (line 154) perform before reverting `GameNotFound`. -/
def registryGet (s : SysState) (gameId : Nat) : Option GameView :=
  if (s.games gameId).player1 = 0 then none else some (getGame s gameId)

/-- The error of a call result, if any. -/
def callError (r : Except Err (SysState × List Event)) : Option Err :=
  match r with
  | Except.error e => some e
  | Except.ok _ => none

/-- The environment's atomic all-or-nothing application of `joinGame`:
on success the mutated storage and the emitted events, on a revert the
unchanged pre-state and no events. -/
def runJoin (env : Env) (s : SysState) (gameId : Nat) : SysState × List Event :=
  match joinGame env s gameId with
  | Except.ok r => r
  | Except.error _ => (s, [])

/-- The environment's atomic all-or-nothing application of `makeMove`. -/
def runMove (env : Env) (s : SysState) (gameId : Nat) (position : Nat) :
    SysState × List Event :=
  match makeMove env s gameId position with
  | Except.ok r => r
  | Except.error _ => (s, [])

/-- `WINNING_COMBINATIONS` from `src/lib/config.ts` — the 8 fixed lines
named by the spec. -/
def WINNING_COMBINATIONS : List (List Nat) :=
  [[0, 1, 2], [3, 4, 5], [6, 7, 8],
   [0, 3, 6], [1, 4, 7], [2, 5, 8],
   [0, 4, 8], [2, 4, 6]]

/-- The precondition checks of `MakeMove` in the order the spec claims,
each yielding its error; `none` when every check passes.  `NotFound`
is the spec's "no record for gameId": the id was never allocated. -/
def specMoveFirstError (env : Env) (s : SysState) (gameId : Nat) (position : Nat) :
    Option Err :=
  if s.gameCounter ≤ gameId then some Err.GameNotFound
  else if (s.games gameId).state ≠ GameState.InProgress then some Err.GameNotInProgress
  else if env.sender ≠ (s.games gameId).player1 ∧ env.sender ≠ (s.games gameId).player2 then
    some Err.NotAPlayer
  else if env.sender ≠ (s.games gameId).currentTurn then some Err.NotYourTurn
  else if ¬ position ≤ 8 then some Err.InvalidPosition
  else if (s.games gameId).board position ≠ CellState.Empty then some Err.CellNotEmpty
  else none

/-- One successful contract call.  The EVM authenticates `msg.sender`;
no external call ever originates from `address(0)`, so every step's
caller differs from the unset sentinel. -/
inductive Step : SysState → SysState → Prop
  | create {s : SysState} (env : Env) (hs : env.sender ≠ 0) :
      Step s (createGame env s).1
  | join {s s' : SysState} (env : Env) (gameId : Nat) (ev : List Event)
      (hs : env.sender ≠ 0) (hok : joinGame env s gameId = Except.ok (s', ev)) :
      Step s s'
  | move {s s' : SysState} (env : Env) (gameId position : Nat) (ev : List Event)
      (hs : env.sender ≠ 0) (hok : makeMove env s gameId position = Except.ok (s', ev)) :
      Step s s'

/-- Storage states reachable from deployment by any sequence of calls
(a reverted call leaves storage unchanged, so only successful calls
appear). -/
inductive Reachable : SysState → Prop
  | init : Reachable initState
  | step {s s' : SysState} : Reachable s → Step s s' → Reachable s'

/-- Per-game invariant. -/
structure GameInv (g : Game) : Prop where
  winner_iff : g.winner ≠ 0 ↔ g.state = GameState.Finished
  finished : g.state = GameState.Finished →
    (g.winner = g.player1 ∨ g.winner = g.player2) ∧ g.player1 ≠ g.player2 ∧
    _checkWinner g.board (markOf g g.winner)
  draw : g.state = GameState.Draw →
    _isBoardFull g.board ∧
    ¬ _checkWinner g.board CellState.X ∧ ¬ _checkWinner g.board CellState.O
  inprog : g.state = GameState.InProgress →
    g.player2 ≠ 0 ∧ g.player1 ≠ g.player2 ∧
    (g.currentTurn = g.player1 ∨ g.currentTurn = g.player2) ∧
    ¬ _checkWinner g.board CellState.X ∧ ¬ _checkWinner g.board CellState.O
  waiting : g.state = GameState.WaitingForPlayer →
    g.board = (fun _ => CellState.Empty) ∧ g.currentTurn = g.player1

/-- `a` participates in the (joined) game `gameId`: `a` is one of its two
players and the game has left the waiting room. -/
def joinedWith (s : SysState) (a : Addr) (gameId : Nat) : Prop :=
  ((s.games gameId).player1 = a ∨ (s.games gameId).player2 = a) ∧
  (s.games gameId).state ≠ GameState.WaitingForPlayer

instance (s : SysState) (a : Addr) (gameId : Nat) : Decidable (joinedWith s a gameId) := by
  unfold joinedWith; infer_instance

/-- Number of allocated games `a` participates in as creator or joiner,
counting only games that were actually joined. -/
def participCount (s : SysState) (a : Addr) : Nat :=
  ((Finset.range s.gameCounter).filter (fun gameId => joinedWith s a gameId)).card

/-- Number of allocated games whose recorded winner is `a`. -/
def wonCount (s : SysState) (a : Addr) : Nat :=
  ((Finset.range s.gameCounter).filter (fun gameId => (s.games gameId).winner = a)).card

/-- Whole-storage invariant. -/
structure SysInv (s : SysState) : Prop where
  counter_iff : ∀ gameId, (s.games gameId).player1 ≠ 0 ↔ gameId < s.gameCounter
  game_inv : ∀ gameId, GameInv (s.games gameId)
  played_count : ∀ a, a ≠ 0 → s.playerGamesPlayed a = participCount s a
  wins_count : ∀ a, a ≠ 0 → s.playerWins a = wonCount s a

/-- A concrete storage with one in-progress game (players `1` and `2`,
`1` to move on an empty board), used to instantiate theorems. -/
def sampleGame : Game :=
  { player1 := 1, player2 := 2, board := fun _ => CellState.Empty,
    currentTurn := 1, winner := 0, state := GameState.InProgress,
    createdAt := 0, lastMoveAt := 0 }

/-- Storage holding `sampleGame` as game `0`. -/
def sampleState : SysState :=
  { gameCounter := 1, tokenIdCounter := 0,
    games := fun g => if g = 0 then sampleGame else Game.zero,
    playerGames := fun a => if a = 1 then [0] else if a = 2 then [0] else [],
    playerWins := fun _ => 0,
    playerGamesPlayed := fun a => if a = 1 then 1 else if a = 2 then 1 else 0,
    nftOwner := fun _ => 0 }

/-- The bytes of an ASCII string literal (every literal below is 7-bit
ASCII, where `Char.toNat` is exactly the UTF-8 byte). -/
def strBytes (s : String) : List Nat :=
  s.data.map Char.toNat

/-- The 64-symbol alphabet of `_base64Encode` (its local `TABLE`). -/
def b64TableStr : String :=
  "ABCDEFGHIJKLMNOPQRSTUVWXYZabcdefghijklmnopqrstuvwxyz0123456789+/"

/-- `TABLE` as bytes. -/
def b64Table : List Nat := strBytes b64TableStr

/-- One iteration of the encoder's `while` loop: bytes `a b c` (the
missing ones zero-filled) become four table symbols.  The source's
shifts are multiplications/divisions by powers of two. -/
def encodeChunk (a b c : Nat) : List Nat :=
  let triple := a * 65536 + b * 256 + c
  [b64Table.getD (triple / 262144 % 64) 0,
   b64Table.getD (triple / 4096 % 64) 0,
   b64Table.getD (triple / 64 % 64) 0,
   b64Table.getD (triple % 64) 0]

/-- The encoder's `while` loop over the whole input. -/
def encodeBody : List Nat → List Nat
  | [] => []
  | [a] => encodeChunk a 0 0
  | [a, b] => encodeChunk a b 0
  | a :: b :: c :: rest => encodeChunk a b c ++ encodeBody rest

/-- Overwrite the last `k` symbols with `'='` (byte 61) — the source's
in-place padding writes at `encodedLen - 1` and `encodedLen - 2`. -/
def overwriteEnd (l : List Nat) (k : Nat) : List Nat :=
  l.take (l.length - k) ++ List.replicate k 61

/-- `_base64Encode(data)`: empty input gives `""`; otherwise the loop's
output with the final `len % 3`-dependent padding overwrite. -/
def _base64Encode (data : List Nat) : List Nat :=
  if data.length = 0 then []
  else
    overwriteEnd (encodeBody data)
      (if data.length % 3 = 1 then 2 else if data.length % 3 = 2 then 1 else 0)

/-- Index of a symbol in the base64 alphabet — the standard decoder's
symbol table, inverse of `TABLE`. -/
def b64SymbolIndex (c : Nat) : Nat :=
  if 65 ≤ c ∧ c ≤ 90 then c - 65
  else if 97 ≤ c ∧ c ≤ 122 then c - 71
  else if 48 ≤ c ∧ c ≤ 57 then c + 4
  else if c = 43 then 62
  else if c = 47 then 63
  else 0

/-- Standard base64 decoding: four symbols back to three bytes, a final
`"="`/`"=="` padded group back to two/one. -/
def _base64Decode : List Nat → List Nat
  | c1 :: c2 :: c3 :: c4 :: rest =>
    let s1 := b64SymbolIndex c1
    let s2 := b64SymbolIndex c2
    let s3 := b64SymbolIndex c3
    let s4 := b64SymbolIndex c4
    if c3 = 61 then [s1 * 4 + s2 / 16]
    else if c4 = 61 then [s1 * 4 + s2 / 16, s2 % 16 * 16 + s3 / 4]
    else (s1 * 4 + s2 / 16) :: (s2 % 16 * 16 + s3 / 4) :: (s3 % 4 * 64 + s4) :: _base64Decode rest
  | _ => []

/-- The digits of `n` in reverse, as the source's fill-from-the-end loop
produces them. -/
def decimalDigitsRev (n : Nat) : List Nat :=
  if n = 0 then []
  else (48 + n % 10) :: decimalDigitsRev (n / 10)
decreasing_by exact Nat.div_lt_self (Nat.pos_of_ne_zero (by assumption)) (by norm_num)

/-- `_toString(value)`: `"0"` for zero, otherwise the decimal digits. -/
def _toString (value : Nat) : List Nat :=
  if value = 0 then [48] else (decimalDigitsRev value).reverse

/-- The fixed SVG prefix up to and including the `#` before the token
number. -/
def svgPrefixStr : String :=
  "<svg xmlns=\"http://www.w3.org/2000/svg\" width=\"350\" height=\"350\"><rect width=\"100%\" height=\"100%\" fill=\"#1a1a2e\"/><text x=\"175\" y=\"100\" text-anchor=\"middle\" fill=\"#00d9ff\" font-size=\"24\" font-family=\"Arial\">TicTacToe</text><text x=\"175\" y=\"140\" text-anchor=\"middle\" fill=\"#00d9ff\" font-size=\"20\" font-family=\"Arial\">WINNER</text><text x=\"175\" y=\"200\" text-anchor=\"middle\" fill=\"#ffd700\" font-size=\"60\" font-family=\"Arial\">#"

/-- The fixed SVG suffix after the token number. -/
def svgSuffixStr : String :=
  "</text><text x=\"175\" y=\"280\" text-anchor=\"middle\" fill=\"#888\" font-size=\"14\" font-family=\"Arial\">On-Chain Victory</text></svg>"

/-- `_generateSVG(tokenId)`: the fixed markup with the decimal token id
spliced in. -/
def _generateSVG (tokenId : Nat) : List Nat :=
  strBytes svgPrefixStr ++ _toString tokenId ++ strBytes svgSuffixStr

/-- JSON prefix of the metadata document (`\x7b` is the literal opening
brace byte). -/
def jsonPrefixStr : String :=
  "\x7b\"name\":\"TicTacToe Winner #"

/-- JSON between the token number and the encoded image. -/
def jsonMidStr : String :=
  "\",\"description\":\"This NFT proves you won a game of TicTacToe on the blockchain!\",\"image\":\"data:image/svg+xml;base64,"

/-- JSON suffix (`\x7d` is the closing brace byte). -/
def jsonSuffixStr : String :=
  "\"\x7d"

/-- `tokenURI(tokenId)`: the data URI embedding the base64-encoded JSON
document, which itself embeds the base64-encoded SVG. -/
def tokenURI (tokenId : Nat) : List Nat :=
  strBytes "data:application/json;base64," ++
  _base64Encode
    (strBytes jsonPrefixStr ++ _toString tokenId ++ strBytes jsonMidStr ++
     _base64Encode (_generateSVG tokenId) ++ strBytes jsonSuffixStr)

/-! ## The base64 codec round-trip -/

theorem b64_index_table : ∀ i < 64, b64SymbolIndex (b64Table.getD i 0) = i := by decide

theorem b64_table_ne_pad : ∀ i < 64, b64Table.getD i 0 ≠ 61 := by decide

theorem encodeBody_length_ge (l : List Nat) (h : l ≠ []) : 4 ≤ (encodeBody l).length := by
  match l with
  | [a] => simp [encodeBody, encodeChunk]
  | [a, b] => simp [encodeBody, encodeChunk]
  | a :: b :: c :: rest =>
    simp only [encodeBody, encodeChunk, List.length_append, List.length_cons]
    omega

theorem overwriteEnd_append (x y : List Nat) (k : Nat) (h : k ≤ y.length) :
    overwriteEnd (x ++ y) k = x ++ overwriteEnd y k := by
  unfold overwriteEnd
  have h1 : (x ++ y).length - k = x.length + (y.length - k) := by
    simp only [List.length_append]; omega
  rw [h1, List.take_append, List.append_assoc]

theorem overwriteEnd_zero (l : List Nat) : overwriteEnd l 0 = l := by
  simp [overwriteEnd]

theorem encode_cons3 (a b c : Nat) (rest : List Nat) :
    _base64Encode (a :: b :: c :: rest) = encodeChunk a b c ++ _base64Encode rest := by
  cases rest with
  | nil => simp [_base64Encode, encodeBody, overwriteEnd_zero]
  | cons d t =>
    have hne1 : ¬ (a :: b :: c :: d :: t).length = 0 := by simp
    have hne2 : ¬ (d :: t).length = 0 := by simp
    have hmod : (a :: b :: c :: d :: t).length % 3 = (d :: t).length % 3 := by
      simp only [List.length_cons]; omega
    have hbody : encodeBody (a :: b :: c :: d :: t) = encodeChunk a b c ++ encodeBody (d :: t) :=
      rfl
    have hk : (if (d :: t).length % 3 = 1 then 2 else if (d :: t).length % 3 = 2 then 1 else 0) ≤
        (encodeBody (d :: t)).length := by
      have := encodeBody_length_ge (d :: t) (by simp)
      split_ifs <;> omega
    unfold _base64Encode
    rw [if_neg hne1, if_neg hne2, hmod, hbody, overwriteEnd_append _ _ _ hk]

theorem decode_chunk (a b c : Nat) (ha : a < 256) (hb : b < 256) (hc : c < 256)
    (E : List Nat) :
    _base64Decode (encodeChunk a b c ++ E) = a :: b :: c :: _base64Decode E := by
  have h1 : (a * 65536 + b * 256 + c) / 262144 % 64 < 64 := Nat.mod_lt _ (by norm_num)
  have h2 : (a * 65536 + b * 256 + c) / 4096 % 64 < 64 := Nat.mod_lt _ (by norm_num)
  have h3 : (a * 65536 + b * 256 + c) / 64 % 64 < 64 := Nat.mod_lt _ (by norm_num)
  have h4 : (a * 65536 + b * 256 + c) % 64 < 64 := Nat.mod_lt _ (by norm_num)
  simp only [encodeChunk, List.cons_append, List.nil_append, _base64Decode]
  rw [if_neg (b64_table_ne_pad _ h3), if_neg (b64_table_ne_pad _ h4),
      b64_index_table _ h1, b64_index_table _ h2, b64_index_table _ h3, b64_index_table _ h4]
  simp only [List.cons.injEq]
  exact ⟨by omega, by omega, by omega, rfl⟩

theorem decode_encode_single (a : Nat) (ha : a < 256) :
    _base64Decode (_base64Encode [a]) = [a] := by
  have h1 : (a * 65536 + 0 * 256 + 0) / 262144 % 64 < 64 := Nat.mod_lt _ (by norm_num)
  have h2 : (a * 65536 + 0 * 256 + 0) / 4096 % 64 < 64 := Nat.mod_lt _ (by norm_num)
  have henc : _base64Encode [a] =
      [b64Table.getD ((a * 65536 + 0 * 256 + 0) / 262144 % 64) 0,
       b64Table.getD ((a * 65536 + 0 * 256 + 0) / 4096 % 64) 0, 61, 61] := rfl
  rw [henc]
  simp only [_base64Decode]
  rw [if_pos trivial, b64_index_table _ h1, b64_index_table _ h2]
  simp only [List.cons.injEq]
  exact ⟨by omega, trivial⟩

theorem decode_encode_pair (a b : Nat) (ha : a < 256) (hb : b < 256) :
    _base64Decode (_base64Encode [a, b]) = [a, b] := by
  have h1 : (a * 65536 + b * 256 + 0) / 262144 % 64 < 64 := Nat.mod_lt _ (by norm_num)
  have h2 : (a * 65536 + b * 256 + 0) / 4096 % 64 < 64 := Nat.mod_lt _ (by norm_num)
  have h3 : (a * 65536 + b * 256 + 0) / 64 % 64 < 64 := Nat.mod_lt _ (by norm_num)
  have henc : _base64Encode [a, b] =
      [b64Table.getD ((a * 65536 + b * 256 + 0) / 262144 % 64) 0,
       b64Table.getD ((a * 65536 + b * 256 + 0) / 4096 % 64) 0,
       b64Table.getD ((a * 65536 + b * 256 + 0) / 64 % 64) 0, 61] := rfl
  rw [henc]
  simp only [_base64Decode]
  rw [if_neg (b64_table_ne_pad _ h3), if_pos trivial,
      b64_index_table _ h1, b64_index_table _ h2, b64_index_table _ h3]
  simp only [List.cons.injEq]
  exact ⟨by omega, by omega, trivial⟩

theorem decode_encode (data : List Nat) (hdata : ∀ x ∈ data, x < 256) :
    _base64Decode (_base64Encode data) = data :=
  match data with
  | [] => by simp [_base64Encode, _base64Decode]
  | [a] => decode_encode_single a (hdata a (by simp))
  | [a, b] => decode_encode_pair a b (hdata a (by simp)) (hdata b (by simp))
  | a :: b :: c :: rest => by
    rw [encode_cons3,
        decode_chunk a b c (hdata a (by simp)) (hdata b (by simp)) (hdata c (by simp)),
        decode_encode rest (fun x hx => hdata x (by simp [hx]))]

theorem decimalDigitsRev_lt : ∀ n, ∀ x ∈ decimalDigitsRev n, x < 256 := by
  intro n
  induction n using Nat.strong_induction_on with
  | _ n ih =>
    intro x hx
    rw [decimalDigitsRev] at hx
    by_cases h : n = 0
    · rw [if_pos h] at hx; simp at hx
    · rw [if_neg h] at hx
      rcases List.mem_cons.mp hx with h1 | h1
      · omega
      · exact ih (n / 10) (Nat.div_lt_self (Nat.pos_of_ne_zero h) (by norm_num)) x h1

theorem _toString_lt (n : Nat) : ∀ x ∈ _toString n, x < 256 := by
  intro x hx
  unfold _toString at hx
  by_cases h : n = 0
  · rw [if_pos h] at hx; simp at hx; omega
  · rw [if_neg h] at hx
    exact decimalDigitsRev_lt n x (List.mem_reverse.mp hx)

set_option maxRecDepth 10000 in
theorem svgPrefix_lt : ∀ x ∈ strBytes svgPrefixStr, x < 256 := by decide

set_option maxRecDepth 10000 in
theorem svgSuffix_lt : ∀ x ∈ strBytes svgSuffixStr, x < 256 := by decide

theorem generateSVG_lt (n : Nat) : ∀ x ∈ _generateSVG n, x < 256 := by
  intro x hx
  unfold _generateSVG at hx
  rcases List.mem_append.mp hx with h | h
  · rcases List.mem_append.mp h with h' | h'
    · exact svgPrefix_lt x h'
    · exact _toString_lt n x h'
  · exact svgSuffix_lt x h

/-- C8: the byte-group encoding used by the metadata document is
invertible — for every tokenId (zero included) decoding the encoded
image payload reproduces the generated SVG markup byte for byte, and in
general decoding `_base64Encode`'s output yields the original byte
sequence. -/
theorem base64_encode_decode_roundtrip :
    (∀ tokenId, _base64Decode (_base64Encode (_generateSVG tokenId)) = _generateSVG tokenId) ∧
    (∀ data : List Nat, (∀ x ∈ data, x < 256) →
      _base64Decode (_base64Encode data) = data) :=
  ⟨fun tokenId => decode_encode _ (generateSVG_lt tokenId),
   fun data h => decode_encode data h⟩

/-- Witness for C8: the round trip at `tokenId = 0` and at a concrete
byte sequence. -/
theorem base64_encode_decode_roundtrip_witness :
    _base64Decode (_base64Encode (_generateSVG 0)) = _generateSVG 0 ∧
    _base64Decode (_base64Encode [72, 105, 33]) = [72, 105, 33] :=
  ⟨base64_encode_decode_roundtrip.1 0,
   base64_encode_decode_roundtrip.2 [72, 105, 33] (by decide)⟩

/-! ## Board engine -/

/-- C2: `_checkWinner(board, mark)` holds exactly when one of the 8
fixed lines `{0,1,2},{3,4,5},{6,7,8},{0,3,6},{1,4,7},{2,5,8},{0,4,8},
{2,4,6}` has all three cells equal to `mark`. -/
theorem checkWinner_iff_winning_combination (board : Board) (mark : CellState) :
    _checkWinner board mark ↔
    ∃ l ∈ WINNING_COMBINATIONS, ∀ i ∈ l, board i = mark := by
  constructor
  · intro h
    rcases h with h|h|h|h|h|h|h|h
    · exact ⟨[0, 1, 2], by simp [WINNING_COMBINATIONS], by
        intro i hi; fin_cases hi <;> simp_all⟩
    · exact ⟨[3, 4, 5], by simp [WINNING_COMBINATIONS], by
        intro i hi; fin_cases hi <;> simp_all⟩
    · exact ⟨[6, 7, 8], by simp [WINNING_COMBINATIONS], by
        intro i hi; fin_cases hi <;> simp_all⟩
    · exact ⟨[0, 3, 6], by simp [WINNING_COMBINATIONS], by
        intro i hi; fin_cases hi <;> simp_all⟩
    · exact ⟨[1, 4, 7], by simp [WINNING_COMBINATIONS], by
        intro i hi; fin_cases hi <;> simp_all⟩
    · exact ⟨[2, 5, 8], by simp [WINNING_COMBINATIONS], by
        intro i hi; fin_cases hi <;> simp_all⟩
    · exact ⟨[0, 4, 8], by simp [WINNING_COMBINATIONS], by
        intro i hi; fin_cases hi <;> simp_all⟩
    · exact ⟨[2, 4, 6], by simp [WINNING_COMBINATIONS], by
        intro i hi; fin_cases hi <;> simp_all⟩
  · rintro ⟨l, hl, hall⟩
    simp only [WINNING_COMBINATIONS, List.mem_cons, List.not_mem_nil, or_false] at hl
    unfold _checkWinner
    rcases hl with rfl|rfl|rfl|rfl|rfl|rfl|rfl|rfl
    · exact Or.inl ⟨hall 0 (by simp), hall 1 (by simp), hall 2 (by simp)⟩
    · exact Or.inr (Or.inl ⟨hall 3 (by simp), hall 4 (by simp), hall 5 (by simp)⟩)
    · exact Or.inr (Or.inr (Or.inl ⟨hall 6 (by simp), hall 7 (by simp), hall 8 (by simp)⟩))
    · exact Or.inr (Or.inr (Or.inr (Or.inl
        ⟨hall 0 (by simp), hall 3 (by simp), hall 6 (by simp)⟩)))
    · exact Or.inr (Or.inr (Or.inr (Or.inr (Or.inl
        ⟨hall 1 (by simp), hall 4 (by simp), hall 7 (by simp)⟩))))
    · exact Or.inr (Or.inr (Or.inr (Or.inr (Or.inr (Or.inl
        ⟨hall 2 (by simp), hall 5 (by simp), hall 8 (by simp)⟩)))))
    · exact Or.inr (Or.inr (Or.inr (Or.inr (Or.inr (Or.inr (Or.inl
        ⟨hall 0 (by simp), hall 4 (by simp), hall 8 (by simp)⟩))))))
    · exact Or.inr (Or.inr (Or.inr (Or.inr (Or.inr (Or.inr (Or.inr
        ⟨hall 2 (by simp), hall 4 (by simp), hall 6 (by simp)⟩))))))

/-! ## Per-call behaviour of the state machine -/

theorem createGame_eq (env : Env) (s : SysState) :
    createGame env s =
      (createState env s, s.gameCounter, [Event.GameCreated s.gameCounter env.sender]) := rfl

theorem joinGame_notfound (env : Env) (s : SysState) (gameId : Nat)
    (h1 : (s.games gameId).player1 = 0) :
    joinGame env s gameId = Except.error Err.GameNotFound := by
  simp only [joinGame]
  rw [if_pos h1]

theorem joinGame_notwaiting (env : Env) (s : SysState) (gameId : Nat)
    (h1 : ¬ (s.games gameId).player1 = 0)
    (h2 : (s.games gameId).state ≠ GameState.WaitingForPlayer) :
    joinGame env s gameId = Except.error Err.GameNotWaitingForPlayer := by
  simp only [joinGame]
  rw [if_neg h1, if_pos h2]

theorem joinGame_selfjoin (env : Env) (s : SysState) (gameId : Nat)
    (h1 : ¬ (s.games gameId).player1 = 0)
    (h2 : (s.games gameId).state = GameState.WaitingForPlayer)
    (h3 : (s.games gameId).player1 = env.sender) :
    joinGame env s gameId = Except.error Err.CannotJoinOwnGame := by
  simp only [joinGame]
  rw [if_neg h1, if_neg (by simp [h2]), if_pos h3]

theorem joinGame_ok (env : Env) (s : SysState) (gameId : Nat)
    (h1 : ¬ (s.games gameId).player1 = 0)
    (h2 : (s.games gameId).state = GameState.WaitingForPlayer)
    (h3 : ¬ (s.games gameId).player1 = env.sender) :
    joinGame env s gameId =
      Except.ok (joinState env s gameId, [Event.GameJoined gameId env.sender]) := by
  simp only [joinGame]
  rw [if_neg h1, if_neg (by simp [h2]), if_neg h3]

theorem makeMove_notfound (env : Env) (s : SysState) (gameId position : Nat)
    (h1 : (s.games gameId).player1 = 0) :
    makeMove env s gameId position = Except.error Err.GameNotFound := by
  simp only [makeMove]
  rw [if_pos h1]

theorem makeMove_notinprogress (env : Env) (s : SysState) (gameId position : Nat)
    (h1 : ¬ (s.games gameId).player1 = 0)
    (h2 : (s.games gameId).state ≠ GameState.InProgress) :
    makeMove env s gameId position = Except.error Err.GameNotInProgress := by
  simp only [makeMove]
  rw [if_neg h1, if_pos h2]

theorem makeMove_notaplayer (env : Env) (s : SysState) (gameId position : Nat)
    (h1 : ¬ (s.games gameId).player1 = 0)
    (h2 : (s.games gameId).state = GameState.InProgress)
    (h4 : env.sender ≠ (s.games gameId).player1 ∧ env.sender ≠ (s.games gameId).player2) :
    makeMove env s gameId position = Except.error Err.NotAPlayer := by
  simp only [makeMove]
  rw [if_neg h1, if_neg (by simp [h2]), if_neg (by simp [h2]), if_pos h4]

theorem makeMove_notyourturn (env : Env) (s : SysState) (gameId position : Nat)
    (h1 : ¬ (s.games gameId).player1 = 0)
    (h2 : (s.games gameId).state = GameState.InProgress)
    (h4 : ¬ (env.sender ≠ (s.games gameId).player1 ∧ env.sender ≠ (s.games gameId).player2))
    (h5 : env.sender ≠ (s.games gameId).currentTurn) :
    makeMove env s gameId position = Except.error Err.NotYourTurn := by
  simp only [makeMove]
  rw [if_neg h1, if_neg (by simp [h2]), if_neg (by simp [h2]), if_neg h4, if_pos h5]

theorem makeMove_invalidposition (env : Env) (s : SysState) (gameId position : Nat)
    (h1 : ¬ (s.games gameId).player1 = 0)
    (h2 : (s.games gameId).state = GameState.InProgress)
    (h4 : ¬ (env.sender ≠ (s.games gameId).player1 ∧ env.sender ≠ (s.games gameId).player2))
    (h5 : ¬ env.sender ≠ (s.games gameId).currentTurn)
    (h6 : 9 ≤ position) :
    makeMove env s gameId position = Except.error Err.InvalidPosition := by
  simp only [makeMove]
  rw [if_neg h1, if_neg (by simp [h2]), if_neg (by simp [h2]), if_neg h4, if_neg h5,
      if_pos h6]

theorem makeMove_cellnotempty (env : Env) (s : SysState) (gameId position : Nat)
    (h1 : ¬ (s.games gameId).player1 = 0)
    (h2 : (s.games gameId).state = GameState.InProgress)
    (h4 : ¬ (env.sender ≠ (s.games gameId).player1 ∧ env.sender ≠ (s.games gameId).player2))
    (h5 : ¬ env.sender ≠ (s.games gameId).currentTurn)
    (h6 : ¬ 9 ≤ position)
    (h7 : (s.games gameId).board position ≠ CellState.Empty) :
    makeMove env s gameId position = Except.error Err.CellNotEmpty := by
  simp only [makeMove]
  rw [if_neg h1, if_neg (by simp [h2]), if_neg (by simp [h2]), if_neg h4, if_neg h5,
      if_neg h6, if_pos h7]

theorem makeMove_win (env : Env) (s : SysState) (gameId position : Nat)
    (h1 : ¬ (s.games gameId).player1 = 0)
    (h2 : (s.games gameId).state = GameState.InProgress)
    (h4 : ¬ (env.sender ≠ (s.games gameId).player1 ∧ env.sender ≠ (s.games gameId).player2))
    (h5 : ¬ env.sender ≠ (s.games gameId).currentTurn)
    (h6 : ¬ 9 ≤ position)
    (h7 : ¬ (s.games gameId).board position ≠ CellState.Empty)
    (hw : _checkWinner (moveBoard env s gameId position) (markOf (s.games gameId) env.sender)) :
    makeMove env s gameId position =
      Except.ok (winState env s gameId position, winEvents env s gameId position) := by
  simp only [makeMove]
  rw [if_neg h1, if_neg (by simp [h2]), if_neg (by simp [h2]), if_neg h4, if_neg h5,
      if_neg h6, if_neg h7, if_pos hw]

theorem makeMove_draw (env : Env) (s : SysState) (gameId position : Nat)
    (h1 : ¬ (s.games gameId).player1 = 0)
    (h2 : (s.games gameId).state = GameState.InProgress)
    (h4 : ¬ (env.sender ≠ (s.games gameId).player1 ∧ env.sender ≠ (s.games gameId).player2))
    (h5 : ¬ env.sender ≠ (s.games gameId).currentTurn)
    (h6 : ¬ 9 ≤ position)
    (h7 : ¬ (s.games gameId).board position ≠ CellState.Empty)
    (hw : ¬ _checkWinner (moveBoard env s gameId position) (markOf (s.games gameId) env.sender))
    (hf : _isBoardFull (moveBoard env s gameId position)) :
    makeMove env s gameId position =
      Except.ok (drawState env s gameId position,
        [Event.MoveMade gameId env.sender position, Event.GameDraw gameId]) := by
  simp only [makeMove]
  rw [if_neg h1, if_neg (by simp [h2]), if_neg (by simp [h2]), if_neg h4, if_neg h5,
      if_neg h6, if_neg h7, if_neg hw, if_pos hf]

theorem makeMove_switch (env : Env) (s : SysState) (gameId position : Nat)
    (h1 : ¬ (s.games gameId).player1 = 0)
    (h2 : (s.games gameId).state = GameState.InProgress)
    (h4 : ¬ (env.sender ≠ (s.games gameId).player1 ∧ env.sender ≠ (s.games gameId).player2))
    (h5 : ¬ env.sender ≠ (s.games gameId).currentTurn)
    (h6 : ¬ 9 ≤ position)
    (h7 : ¬ (s.games gameId).board position ≠ CellState.Empty)
    (hw : ¬ _checkWinner (moveBoard env s gameId position) (markOf (s.games gameId) env.sender))
    (hf : ¬ _isBoardFull (moveBoard env s gameId position)) :
    makeMove env s gameId position =
      Except.ok (switchState env s gameId position,
        [Event.MoveMade gameId env.sender position]) := by
  simp only [makeMove]
  rw [if_neg h1, if_neg (by simp [h2]), if_neg (by simp [h2]), if_neg h4, if_neg h5,
      if_neg h6, if_neg h7, if_neg hw, if_neg hf]

/-! ## Projections of the post-states -/

theorem winState_games_self (env : Env) (s : SysState) (gameId position : Nat) :
    (winState env s gameId position).games gameId =
    { s.games gameId with
      board := moveBoard env s gameId position, lastMoveAt := env.timestamp,
      winner := env.sender, state := GameState.Finished } := by
  simp [winState]

theorem winState_games_other (env : Env) (s : SysState) (gameId position g : Nat)
    (h : g ≠ gameId) :
    (winState env s gameId position).games g = s.games g := by
  simp [winState, h]

theorem drawState_games_self (env : Env) (s : SysState) (gameId position : Nat) :
    (drawState env s gameId position).games gameId =
    { s.games gameId with
      board := moveBoard env s gameId position, lastMoveAt := env.timestamp,
      state := GameState.Draw } := by
  simp [drawState]

theorem drawState_games_other (env : Env) (s : SysState) (gameId position g : Nat)
    (h : g ≠ gameId) :
    (drawState env s gameId position).games g = s.games g := by
  simp [drawState, h]

theorem switchState_games_self (env : Env) (s : SysState) (gameId position : Nat) :
    (switchState env s gameId position).games gameId =
    { s.games gameId with
      board := moveBoard env s gameId position, lastMoveAt := env.timestamp,
      currentTurn :=
        if env.sender = (s.games gameId).player1 then (s.games gameId).player2
        else (s.games gameId).player1 } := by
  simp [switchState]

theorem switchState_games_other (env : Env) (s : SysState) (gameId position g : Nat)
    (h : g ≠ gameId) :
    (switchState env s gameId position).games g = s.games g := by
  simp [switchState, h]

theorem joinState_games_self (env : Env) (s : SysState) (gameId : Nat) :
    (joinState env s gameId).games gameId =
    { s.games gameId with
      player2 := env.sender, state := GameState.InProgress,
      lastMoveAt := env.timestamp } := by
  simp [joinState]

theorem joinState_games_other (env : Env) (s : SysState) (gameId g : Nat)
    (h : g ≠ gameId) :
    (joinState env s gameId).games g = s.games g := by
  simp [joinState, h]

theorem createState_games_self (env : Env) (s : SysState) :
    (createState env s).games s.gameCounter = createdGame env := by
  simp [createState]

theorem createState_games_other (env : Env) (s : SysState) (g : Nat)
    (h : g ≠ s.gameCounter) :
    (createState env s).games g = s.games g := by
  simp [createState, h]

/-! ## Claims about single calls -/

/-- C10: `makeMove` never reports `GameAlreadyFinished`: its result is
success or one of the six other reachable errors, because a `Finished`
game already fails the preceding `state != InProgress` check. -/
theorem makeMove_never_already_finished (env : Env) (s : SysState) (gameId position : Nat) :
    callError (makeMove env s gameId position) = none ∨
    ∃ e, callError (makeMove env s gameId position) = some e ∧
      e ∈ [Err.GameNotFound, Err.GameNotInProgress, Err.NotAPlayer,
           Err.NotYourTurn, Err.InvalidPosition, Err.CellNotEmpty] := by
  by_cases h1 : (s.games gameId).player1 = 0
  · rw [makeMove_notfound env s gameId position h1]
    exact Or.inr ⟨Err.GameNotFound, rfl, by simp⟩
  by_cases h2 : (s.games gameId).state ≠ GameState.InProgress
  · rw [makeMove_notinprogress env s gameId position h1 h2]
    exact Or.inr ⟨Err.GameNotInProgress, rfl, by simp⟩
  push_neg at h2
  by_cases h4 : env.sender ≠ (s.games gameId).player1 ∧ env.sender ≠ (s.games gameId).player2
  · rw [makeMove_notaplayer env s gameId position h1 h2 h4]
    exact Or.inr ⟨Err.NotAPlayer, rfl, by simp⟩
  by_cases h5 : env.sender ≠ (s.games gameId).currentTurn
  · rw [makeMove_notyourturn env s gameId position h1 h2 h4 h5]
    exact Or.inr ⟨Err.NotYourTurn, rfl, by simp⟩
  by_cases h6 : 9 ≤ position
  · rw [makeMove_invalidposition env s gameId position h1 h2 h4 h5 h6]
    exact Or.inr ⟨Err.InvalidPosition, rfl, by simp⟩
  by_cases h7 : (s.games gameId).board position ≠ CellState.Empty
  · rw [makeMove_cellnotempty env s gameId position h1 h2 h4 h5 h6 h7]
    exact Or.inr ⟨Err.CellNotEmpty, rfl, by simp⟩
  by_cases hw : _checkWinner (moveBoard env s gameId position) (markOf (s.games gameId) env.sender)
  · rw [makeMove_win env s gameId position h1 h2 h4 h5 h6 h7 hw]
    exact Or.inl rfl
  by_cases hf : _isBoardFull (moveBoard env s gameId position)
  · rw [makeMove_draw env s gameId position h1 h2 h4 h5 h6 h7 hw hf]
    exact Or.inl rfl
  · rw [makeMove_switch env s gameId position h1 h2 h4 h5 h6 h7 hw hf]
    exact Or.inl rfl

/-- C6: a call of `joinGame` or `makeMove` that fails with any error
leaves the entire storage unchanged and emits no event: the
environment's atomic application (`runJoin`/`runMove`) of an errored
call is the identity on storage with an empty event list. -/
theorem failed_call_no_mutation (env : Env) (s : SysState) (gameId position : Nat) :
    (∀ e, joinGame env s gameId = Except.error e → runJoin env s gameId = (s, [])) ∧
    (∀ e, makeMove env s gameId position = Except.error e →
      runMove env s gameId position = (s, [])) := by
  constructor
  · intro e h
    unfold runJoin
    rw [h]
  · intro e h
    unfold runMove
    rw [h]

/-- Witness for C6: on the freshly deployed storage both calls fail with
`GameNotFound` and change nothing. -/
theorem failed_call_no_mutation_witness :
    runJoin ⟨1, 0⟩ initState 0 = (initState, []) ∧
    runMove ⟨1, 0⟩ initState 0 0 = (initState, []) :=
  ⟨(failed_call_no_mutation ⟨1, 0⟩ initState 0 0).1 Err.GameNotFound rfl,
   (failed_call_no_mutation ⟨1, 0⟩ initState 0 0).2 Err.GameNotFound rfl⟩

/-- C5 counterexample: it is not the case that `makeMove` with
`position = 9` always fails with `InvalidPosition`; on the initial
storage (no record for game 0) it fails with `GameNotFound` instead,
because the position check runs only after the record, state,
participant and turn checks. -/
theorem position_nine_not_always_out_of_range :
    ¬ ∀ (env : Env) (s : SysState) (gameId : Nat),
        makeMove env s gameId 9 = Except.error Err.InvalidPosition := by
  intro h
  have h0 := h ⟨1, 0⟩ initState 0
  have h1 : makeMove ⟨1, 0⟩ initState 0 9 = Except.error Err.GameNotFound := rfl
  rw [h1] at h0
  exact absurd (Except.error.inj h0) (by decide)

/-- C5 amended: a `makeMove` call with `position = 9` never succeeds;
it fails with `InvalidPosition` whenever the earlier checks pass (the
record exists, the game is in progress, the caller is the participant
whose turn it is), and otherwise with the first violated earlier
check's error. -/
theorem position_nine_always_fails (env : Env) (s : SysState) (gameId : Nat) :
    (∀ s' ev, makeMove env s gameId 9 ≠ Except.ok (s', ev)) ∧
    ((s.games gameId).player1 ≠ 0 →
     (s.games gameId).state = GameState.InProgress →
     (env.sender = (s.games gameId).player1 ∨ env.sender = (s.games gameId).player2) →
     env.sender = (s.games gameId).currentTurn →
     makeMove env s gameId 9 = Except.error Err.InvalidPosition) := by
  constructor
  · intro s' ev
    by_cases h1 : (s.games gameId).player1 = 0
    · rw [makeMove_notfound env s gameId 9 h1]
      simp
    by_cases h2 : (s.games gameId).state ≠ GameState.InProgress
    · rw [makeMove_notinprogress env s gameId 9 h1 h2]
      simp
    push_neg at h2
    by_cases h4 : env.sender ≠ (s.games gameId).player1 ∧ env.sender ≠ (s.games gameId).player2
    · rw [makeMove_notaplayer env s gameId 9 h1 h2 h4]
      simp
    by_cases h5 : env.sender ≠ (s.games gameId).currentTurn
    · rw [makeMove_notyourturn env s gameId 9 h1 h2 h4 h5]
      simp
    · rw [makeMove_invalidposition env s gameId 9 h1 h2 h4 h5 (by omega)]
      simp
  · intro hp1 hst hpart hturn
    exact makeMove_invalidposition env s gameId 9 hp1 hst (by tauto) (by simp [hturn])
      (by omega)

/-- Witness for C5's amended statement on a concrete in-progress game. -/
theorem position_nine_always_fails_witness :
    makeMove ⟨1, 0⟩ sampleState 0 9 = Except.error Err.InvalidPosition :=
  (position_nine_always_fails ⟨1, 0⟩ sampleState 0).2 (by decide) (by decide)
    (by decide) (by decide)

/-- C1: an accepted `makeMove` (all precondition checks pass) has
exactly one of three outcomes, decided in this order on the updated
board: a win for the caller's mark (winner set to the caller, state
`Finished`, turn not switched), else a draw when the board is full
(state `Draw`, turn not switched), else the game stays `InProgress` and
the turn passes to the other participant. -/
theorem makeMove_accepted_trichotomy (env : Env) (s : SysState) (gameId position : Nat)
    (h1 : (s.games gameId).player1 ≠ 0)
    (h2 : (s.games gameId).state = GameState.InProgress)
    (h3 : env.sender = (s.games gameId).player1 ∨ env.sender = (s.games gameId).player2)
    (h4 : env.sender = (s.games gameId).currentTurn)
    (h5 : position < 9)
    (h6 : (s.games gameId).board position = CellState.Empty) :
    ∃ s' ev, makeMove env s gameId position = Except.ok (s', ev) ∧
      ((_checkWinner (moveBoard env s gameId position) (markOf (s.games gameId) env.sender) →
        (s'.games gameId).winner = env.sender ∧
        (s'.games gameId).state = GameState.Finished ∧
        (s'.games gameId).currentTurn = (s.games gameId).currentTurn) ∧
       (¬ _checkWinner (moveBoard env s gameId position) (markOf (s.games gameId) env.sender) →
        _isBoardFull (moveBoard env s gameId position) →
        (s'.games gameId).state = GameState.Draw ∧
        (s'.games gameId).winner = (s.games gameId).winner ∧
        (s'.games gameId).currentTurn = (s.games gameId).currentTurn) ∧
       (¬ _checkWinner (moveBoard env s gameId position) (markOf (s.games gameId) env.sender) →
        ¬ _isBoardFull (moveBoard env s gameId position) →
        (s'.games gameId).state = GameState.InProgress ∧
        (s'.games gameId).winner = (s.games gameId).winner ∧
        (s'.games gameId).currentTurn =
          (if env.sender = (s.games gameId).player1 then (s.games gameId).player2
           else (s.games gameId).player1))) := by
  have h44 : ¬ (env.sender ≠ (s.games gameId).player1 ∧ env.sender ≠ (s.games gameId).player2) := by
    tauto
  have h5' : ¬ 9 ≤ position := by omega
  have h6' : ¬ (s.games gameId).board position ≠ CellState.Empty := by simp [h6]
  have h4' : ¬ env.sender ≠ (s.games gameId).currentTurn := by simp [h4]
  by_cases hw : _checkWinner (moveBoard env s gameId position) (markOf (s.games gameId) env.sender)
  · refine ⟨winState env s gameId position, winEvents env s gameId position,
      makeMove_win env s gameId position h1 h2 h44 h4' h5' h6' hw, ?_, ?_, ?_⟩
    · intro _
      rw [winState_games_self]
      exact ⟨rfl, rfl, rfl⟩
    · intro hnw _
      exact absurd hw hnw
    · intro hnw _
      exact absurd hw hnw
  · by_cases hf : _isBoardFull (moveBoard env s gameId position)
    · refine ⟨drawState env s gameId position, _,
        makeMove_draw env s gameId position h1 h2 h44 h4' h5' h6' hw hf, ?_, ?_, ?_⟩
      · intro hw'
        exact absurd hw' hw
      · intro _ _
        rw [drawState_games_self]
        exact ⟨rfl, rfl, rfl⟩
      · intro _ hnf
        exact absurd hf hnf
    · refine ⟨switchState env s gameId position, _,
        makeMove_switch env s gameId position h1 h2 h44 h4' h5' h6' hw hf, ?_, ?_, ?_⟩
      · intro hw'
        exact absurd hw' hw
      · intro _ hf'
        exact absurd hf' hf
      · intro _ _
        rw [switchState_games_self]
        exact ⟨h2, rfl, rfl⟩

/-- Witness for C1: player `1` marks the centre of the sample game. -/
theorem makeMove_accepted_trichotomy_witness :
    ∃ s' ev, makeMove ⟨1, 0⟩ sampleState 0 4 = Except.ok (s', ev) ∧
      ((_checkWinner (moveBoard ⟨1, 0⟩ sampleState 0 4) (markOf (sampleState.games 0) 1) →
        (s'.games 0).winner = 1 ∧
        (s'.games 0).state = GameState.Finished ∧
        (s'.games 0).currentTurn = (sampleState.games 0).currentTurn) ∧
       (¬ _checkWinner (moveBoard ⟨1, 0⟩ sampleState 0 4) (markOf (sampleState.games 0) 1) →
        _isBoardFull (moveBoard ⟨1, 0⟩ sampleState 0 4) →
        (s'.games 0).state = GameState.Draw ∧
        (s'.games 0).winner = (sampleState.games 0).winner ∧
        (s'.games 0).currentTurn = (sampleState.games 0).currentTurn) ∧
       (¬ _checkWinner (moveBoard ⟨1, 0⟩ sampleState 0 4) (markOf (sampleState.games 0) 1) →
        ¬ _isBoardFull (moveBoard ⟨1, 0⟩ sampleState 0 4) →
        (s'.games 0).state = GameState.InProgress ∧
        (s'.games 0).winner = (sampleState.games 0).winner ∧
        (s'.games 0).currentTurn =
          (if 1 = (sampleState.games 0).player1 then (sampleState.games 0).player2
           else (sampleState.games 0).player1))) :=
  makeMove_accepted_trichotomy ⟨1, 0⟩ sampleState 0 4 (by decide) (by decide)
    (by decide) (by decide) (by decide) (by decide)

/-! ## Decomposing successful calls -/

theorem joinGame_ok_cases (env : Env) (s : SysState) (gameId : Nat) (s' : SysState)
    (ev : List Event) (hok : joinGame env s gameId = Except.ok (s', ev)) :
    ¬ (s.games gameId).player1 = 0 ∧
    (s.games gameId).state = GameState.WaitingForPlayer ∧
    ¬ (s.games gameId).player1 = env.sender ∧
    s' = joinState env s gameId := by
  by_cases h1 : (s.games gameId).player1 = 0
  · rw [joinGame_notfound env s gameId h1] at hok
    exact absurd hok (by simp)
  by_cases h2 : (s.games gameId).state ≠ GameState.WaitingForPlayer
  · rw [joinGame_notwaiting env s gameId h1 h2] at hok
    exact absurd hok (by simp)
  push_neg at h2
  by_cases h3 : (s.games gameId).player1 = env.sender
  · rw [joinGame_selfjoin env s gameId h1 h2 h3] at hok
    exact absurd hok (by simp)
  rw [joinGame_ok env s gameId h1 h2 h3] at hok
  exact ⟨h1, h2, h3, (congrArg Prod.fst (Except.ok.inj hok)).symm⟩

theorem makeMove_ok_cases (env : Env) (s : SysState) (gameId position : Nat) (s' : SysState)
    (ev : List Event) (hok : makeMove env s gameId position = Except.ok (s', ev)) :
    ¬ (s.games gameId).player1 = 0 ∧
    (s.games gameId).state = GameState.InProgress ∧
    (env.sender = (s.games gameId).player1 ∨ env.sender = (s.games gameId).player2) ∧
    env.sender = (s.games gameId).currentTurn ∧
    position < 9 ∧
    (s.games gameId).board position = CellState.Empty ∧
    ((_checkWinner (moveBoard env s gameId position) (markOf (s.games gameId) env.sender) ∧
      s' = winState env s gameId position) ∨
     (¬ _checkWinner (moveBoard env s gameId position) (markOf (s.games gameId) env.sender) ∧
      _isBoardFull (moveBoard env s gameId position) ∧
      s' = drawState env s gameId position) ∨
     (¬ _checkWinner (moveBoard env s gameId position) (markOf (s.games gameId) env.sender) ∧
      ¬ _isBoardFull (moveBoard env s gameId position) ∧
      s' = switchState env s gameId position)) := by
  by_cases h1 : (s.games gameId).player1 = 0
  · rw [makeMove_notfound env s gameId position h1] at hok
    exact absurd hok (by simp)
  by_cases h2 : (s.games gameId).state ≠ GameState.InProgress
  · rw [makeMove_notinprogress env s gameId position h1 h2] at hok
    exact absurd hok (by simp)
  push_neg at h2
  by_cases h4 : env.sender ≠ (s.games gameId).player1 ∧ env.sender ≠ (s.games gameId).player2
  · rw [makeMove_notaplayer env s gameId position h1 h2 h4] at hok
    exact absurd hok (by simp)
  by_cases h5 : env.sender ≠ (s.games gameId).currentTurn
  · rw [makeMove_notyourturn env s gameId position h1 h2 h4 h5] at hok
    exact absurd hok (by simp)
  by_cases h6 : 9 ≤ position
  · rw [makeMove_invalidposition env s gameId position h1 h2 h4 h5 h6] at hok
    exact absurd hok (by simp)
  by_cases h7 : (s.games gameId).board position ≠ CellState.Empty
  · rw [makeMove_cellnotempty env s gameId position h1 h2 h4 h5 h6 h7] at hok
    exact absurd hok (by simp)
  push_neg at h4 h5 h7
  refine ⟨h1, h2, by tauto, h5, by omega, h7, ?_⟩
  by_cases hw : _checkWinner (moveBoard env s gameId position) (markOf (s.games gameId) env.sender)
  · rw [makeMove_win env s gameId position h1 h2 (by tauto) (by simp [h5])
      (by omega) (by simp [h7]) hw] at hok
    exact Or.inl ⟨hw, (congrArg Prod.fst (Except.ok.inj hok)).symm⟩
  by_cases hf : _isBoardFull (moveBoard env s gameId position)
  · rw [makeMove_draw env s gameId position h1 h2 (by tauto) (by simp [h5])
      (by omega) (by simp [h7]) hw hf] at hok
    exact Or.inr (Or.inl ⟨hw, hf, (congrArg Prod.fst (Except.ok.inj hok)).symm⟩)
  · rw [makeMove_switch env s gameId position h1 h2 (by tauto) (by simp [h5])
      (by omega) (by simp [h7]) hw hf] at hok
    exact Or.inr (Or.inr ⟨hw, hf, (congrArg Prod.fst (Except.ok.inj hok)).symm⟩)

/-! ## Counting helpers -/

theorem filter_card_congr (n : Nat) (p q : Nat → Prop) [DecidablePred p] [DecidablePred q]
    (h : ∀ j, j < n → (q j ↔ p j)) :
    ((Finset.range n).filter q).card = ((Finset.range n).filter p).card := by
  have heq : (Finset.range n).filter q = (Finset.range n).filter p := by
    ext j
    simp only [Finset.mem_filter, Finset.mem_range]
    constructor
    · rintro ⟨hj, hq⟩
      exact ⟨hj, (h j hj).mp hq⟩
    · rintro ⟨hj, hp⟩
      exact ⟨hj, (h j hj).mpr hp⟩
  rw [heq]

theorem filter_card_flip (n i : Nat) (p q : Nat → Prop) [DecidablePred p] [DecidablePred q]
    (hi : i < n) (hagree : ∀ j, j < n → j ≠ i → (q j ↔ p j))
    (hpi : ¬ p i) (hqi : q i) :
    ((Finset.range n).filter q).card = ((Finset.range n).filter p).card + 1 := by
  have hins : (Finset.range n).filter q = insert i ((Finset.range n).filter p) := by
    ext j
    simp only [Finset.mem_filter, Finset.mem_range, Finset.mem_insert]
    by_cases hj : j = i
    · subst hj
      simp [hi, hqi]
    · simp only [hj, false_or]
      constructor
      · rintro ⟨hjn, hq⟩
        exact ⟨hjn, (hagree j hjn hj).mp hq⟩
      · rintro ⟨hjn, hp⟩
        exact ⟨hjn, (hagree j hjn hj).mpr hp⟩
  rw [hins, Finset.card_insert_of_not_mem]
  simp [Finset.mem_filter, hpi]

theorem filter_card_succ (n : Nat) (p : Nat → Prop) [DecidablePred p] (hpn : ¬ p n) :
    ((Finset.range (n + 1)).filter p).card = ((Finset.range n).filter p).card := by
  rw [Finset.range_succ, Finset.filter_insert, if_neg hpn]

/-! ## Board lemmas for the invariant -/

theorem checkWinner_update_other (b : Board) (position : Nat) (mark m : CellState)
    (hm : mark ≠ m) (hno : ¬ _checkWinner b m) :
    ¬ _checkWinner (fun i => if i = position then mark else b i) m := by
  intro hw
  apply hno
  have hc : ∀ i, (if i = position then mark else b i) = m → b i = m := by
    intro i hi
    by_cases h : i = position
    · rw [if_pos h] at hi
      exact absurd hi hm
    · rwa [if_neg h] at hi
  unfold _checkWinner at hw ⊢
  rcases hw with ⟨x, y, z⟩|⟨x, y, z⟩|⟨x, y, z⟩|⟨x, y, z⟩|⟨x, y, z⟩|⟨x, y, z⟩|⟨x, y, z⟩|⟨x, y, z⟩
  · exact Or.inl ⟨hc _ x, hc _ y, hc _ z⟩
  · exact Or.inr (Or.inl ⟨hc _ x, hc _ y, hc _ z⟩)
  · exact Or.inr (Or.inr (Or.inl ⟨hc _ x, hc _ y, hc _ z⟩))
  · exact Or.inr (Or.inr (Or.inr (Or.inl ⟨hc _ x, hc _ y, hc _ z⟩)))
  · exact Or.inr (Or.inr (Or.inr (Or.inr (Or.inl ⟨hc _ x, hc _ y, hc _ z⟩))))
  · exact Or.inr (Or.inr (Or.inr (Or.inr (Or.inr (Or.inl ⟨hc _ x, hc _ y, hc _ z⟩)))))
  · exact Or.inr (Or.inr (Or.inr (Or.inr (Or.inr (Or.inr (Or.inl ⟨hc _ x, hc _ y, hc _ z⟩))))))
  · exact Or.inr (Or.inr (Or.inr (Or.inr (Or.inr (Or.inr (Or.inr ⟨hc _ x, hc _ y, hc _ z⟩))))))

theorem moveBoard_no_other_win (env : Env) (s : SysState) (gameId position : Nat)
    (hX : ¬ _checkWinner (s.games gameId).board CellState.X)
    (hO : ¬ _checkWinner (s.games gameId).board CellState.O)
    (hw : ¬ _checkWinner (moveBoard env s gameId position) (markOf (s.games gameId) env.sender)) :
    ¬ _checkWinner (moveBoard env s gameId position) CellState.X ∧
    ¬ _checkWinner (moveBoard env s gameId position) CellState.O := by
  by_cases h : env.sender = (s.games gameId).player1
  · have hmark : markOf (s.games gameId) env.sender = CellState.X := by
      simp [markOf, h]
    refine ⟨by rwa [hmark] at hw, ?_⟩
    exact checkWinner_update_other (s.games gameId).board position
      (markOf (s.games gameId) env.sender) CellState.O (by simp [hmark]) hO
  · have hmark : markOf (s.games gameId) env.sender = CellState.O := by
      simp [markOf, h]
    refine ⟨?_, by rwa [hmark] at hw⟩
    exact checkWinner_update_other (s.games gameId).board position
      (markOf (s.games gameId) env.sender) CellState.X (by simp [hmark]) hX

/-! ## Preservation of the invariant -/

theorem inv_init : SysInv initState := by
  constructor
  · intro gameId
    simp [initState, Game.zero]
  · intro gameId
    constructor
    · simp [initState, Game.zero]
    · intro h
      exact absurd h (by simp [initState, Game.zero])
    · intro h
      exact absurd h (by simp [initState, Game.zero])
    · intro h
      exact absurd h (by simp [initState, Game.zero])
    · intro _
      exact ⟨rfl, rfl⟩
  · intro a _
    simp [initState, participCount]
  · intro a _
    simp [initState, wonCount]

theorem inv_create (env : Env) (s : SysState) (hs : env.sender ≠ 0) (inv : SysInv s) :
    SysInv (createState env s) := by
  have hcnt : (createState env s).gameCounter = s.gameCounter + 1 := rfl
  constructor
  · intro gameId
    rw [hcnt]
    by_cases h : gameId = s.gameCounter
    · subst h
      rw [createState_games_self]
      constructor
      · intro _
        omega
      · intro _
        exact hs
    · rw [createState_games_other env s gameId h]
      have hold := inv.counter_iff gameId
      constructor
      · intro hp
        have := hold.mp hp
        omega
      · intro hltg
        exact hold.mpr (by omega)
  · intro gameId
    by_cases h : gameId = s.gameCounter
    · subst h
      rw [createState_games_self]
      constructor
      · simp [createdGame]
      · intro hfin
        exact absurd hfin (by simp [createdGame])
      · intro hdraw
        exact absurd hdraw (by simp [createdGame])
      · intro hprog
        exact absurd hprog (by simp [createdGame])
      · intro _
        exact ⟨rfl, rfl⟩
    · rw [createState_games_other env s gameId h]
      exact inv.game_inv gameId
  · intro a ha
    have hnew : ¬ joinedWith (createState env s) a s.gameCounter := by
      unfold joinedWith
      rw [createState_games_self]
      rintro ⟨_, hne⟩
      exact hne rfl
    have hagree : ∀ j, j < s.gameCounter →
        (joinedWith (createState env s) a j ↔ joinedWith s a j) := by
      intro j hj
      unfold joinedWith
      rw [createState_games_other env s j (by omega)]
    have hcard : participCount (createState env s) a = participCount s a := by
      unfold participCount
      rw [hcnt,
        filter_card_succ s.gameCounter (fun gameId => joinedWith (createState env s) a gameId) hnew]
      exact filter_card_congr s.gameCounter (fun gameId => joinedWith s a gameId)
        (fun gameId => joinedWith (createState env s) a gameId) hagree
    have hpl : (createState env s).playerGamesPlayed a = s.playerGamesPlayed a := rfl
    rw [hpl, hcard]
    exact inv.played_count a ha
  · intro a ha
    have hnew : ¬ ((createState env s).games s.gameCounter).winner = a := by
      rw [createState_games_self]
      intro h
      exact ha h.symm
    have hagree : ∀ j, j < s.gameCounter →
        (((createState env s).games j).winner = a ↔ (s.games j).winner = a) := by
      intro j hj
      rw [createState_games_other env s j (by omega)]
    have hcard : wonCount (createState env s) a = wonCount s a := by
      unfold wonCount
      rw [hcnt,
        filter_card_succ s.gameCounter
          (fun gameId => ((createState env s).games gameId).winner = a) hnew]
      exact filter_card_congr s.gameCounter (fun gameId => (s.games gameId).winner = a)
        (fun gameId => ((createState env s).games gameId).winner = a) hagree
    have hpw : (createState env s).playerWins a = s.playerWins a := rfl
    rw [hpw, hcard]
    exact inv.wins_count a ha

theorem inv_join (env : Env) (s : SysState) (gameId : Nat) (s' : SysState) (ev : List Event)
    (hs : env.sender ≠ 0) (inv : SysInv s)
    (hok : joinGame env s gameId = Except.ok (s', ev)) : SysInv s' := by
  obtain ⟨h1, h2, h3, rfl⟩ := joinGame_ok_cases env s gameId s' ev hok
  have hlt : gameId < s.gameCounter := (inv.counter_iff gameId).mp h1
  have hwait := (inv.game_inv gameId).waiting h2
  have hw0 : (s.games gameId).winner = 0 := by
    by_contra hw
    have hfin := (inv.game_inv gameId).winner_iff.mp hw
    rw [h2] at hfin
    exact GameState.noConfusion hfin
  have hcnt : (joinState env s gameId).gameCounter = s.gameCounter := rfl
  constructor
  · intro g
    by_cases hg : g = gameId
    · subst hg
      rw [joinState_games_self]
      exact inv.counter_iff g
    · rw [joinState_games_other env s gameId g hg]
      exact inv.counter_iff g
  · intro g
    by_cases hg : g = gameId
    · subst hg
      rw [joinState_games_self]
      constructor
      · show (s.games g).winner ≠ 0 ↔ GameState.InProgress = GameState.Finished
        simp [hw0]
      · intro hfin
        exact absurd hfin (by simp)
      · intro hdraw
        exact absurd hdraw (by simp)
      · intro _
        refine ⟨hs, fun h => h3 h, Or.inl hwait.2, ?_, ?_⟩
        · show ¬ _checkWinner (s.games g).board CellState.X
          rw [hwait.1]
          decide
        · show ¬ _checkWinner (s.games g).board CellState.O
          rw [hwait.1]
          decide
      · intro hwt
        exact absurd hwt (by simp)
    · rw [joinState_games_other env s gameId g hg]
      exact inv.game_inv g
  · intro a ha
    have hpl : (joinState env s gameId).playerGamesPlayed a = joinPlayed env s gameId a := rfl
    have hagree : ∀ j, j < s.gameCounter → j ≠ gameId →
        (joinedWith (joinState env s gameId) a j ↔ joinedWith s a j) := by
      intro j _ hj
      unfold joinedWith
      rw [joinState_games_other env s gameId j hj]
    have hold : ¬ joinedWith s a gameId := by
      rintro ⟨_, hne⟩
      exact hne h2
    rw [hpl]
    by_cases hap1 : a = (s.games gameId).player1
    · have han : a ≠ env.sender := fun h => h3 (hap1 ▸ h)
      have hq : joinedWith (joinState env s gameId) a gameId := by
        unfold joinedWith
        rw [joinState_games_self]
        exact ⟨Or.inl hap1.symm, by simp⟩
      have hflip : participCount (joinState env s gameId) a = participCount s a + 1 :=
        filter_card_flip s.gameCounter gameId (fun j => joinedWith s a j)
          (fun j => joinedWith (joinState env s gameId) a j) hlt hagree hold hq
      rw [hflip, ← inv.played_count a ha]
      show (if a = env.sender then
          (if env.sender = (s.games gameId).player1
            then s.playerGamesPlayed (s.games gameId).player1 + 1
            else s.playerGamesPlayed env.sender) + 1
        else if a = (s.games gameId).player1
          then s.playerGamesPlayed (s.games gameId).player1 + 1
          else s.playerGamesPlayed a) = s.playerGamesPlayed a + 1
      rw [if_neg han, if_pos hap1, hap1]
    · by_cases has : a = env.sender
      · have hq : joinedWith (joinState env s gameId) a gameId := by
          unfold joinedWith
          rw [joinState_games_self]
          exact ⟨Or.inr has.symm, by simp⟩
        have hflip : participCount (joinState env s gameId) a = participCount s a + 1 :=
          filter_card_flip s.gameCounter gameId (fun j => joinedWith s a j)
            (fun j => joinedWith (joinState env s gameId) a j) hlt hagree hold hq
        rw [hflip, ← inv.played_count a ha]
        show (if a = env.sender then
            (if env.sender = (s.games gameId).player1
              then s.playerGamesPlayed (s.games gameId).player1 + 1
              else s.playerGamesPlayed env.sender) + 1
          else if a = (s.games gameId).player1
            then s.playerGamesPlayed (s.games gameId).player1 + 1
            else s.playerGamesPlayed a) = s.playerGamesPlayed a + 1
        rw [if_pos has, if_neg (fun h => h3 h.symm), ← has]
      · have hq : ¬ joinedWith (joinState env s gameId) a gameId := by
          unfold joinedWith
          rw [joinState_games_self]
          rintro ⟨h | h, _⟩
          · exact hap1 h.symm
          · exact has h.symm
        have hagree' : ∀ j, j < s.gameCounter →
            (joinedWith (joinState env s gameId) a j ↔ joinedWith s a j) := by
          intro j hj
          by_cases hj' : j = gameId
          · subst hj'
            exact ⟨fun hh => absurd hh hq, fun hh => absurd hh hold⟩
          · exact hagree j hj hj'
        have hcard : participCount (joinState env s gameId) a = participCount s a :=
          filter_card_congr s.gameCounter (fun j => joinedWith s a j)
            (fun j => joinedWith (joinState env s gameId) a j) hagree'
        rw [hcard, ← inv.played_count a ha]
        show (if a = env.sender then
            (if env.sender = (s.games gameId).player1
              then s.playerGamesPlayed (s.games gameId).player1 + 1
              else s.playerGamesPlayed env.sender) + 1
          else if a = (s.games gameId).player1
            then s.playerGamesPlayed (s.games gameId).player1 + 1
            else s.playerGamesPlayed a) = s.playerGamesPlayed a
        rw [if_neg has, if_neg hap1]
  · intro a ha
    have hpw : (joinState env s gameId).playerWins a = s.playerWins a := rfl
    have hagree : ∀ j, j < s.gameCounter →
        (((joinState env s gameId).games j).winner = a ↔ (s.games j).winner = a) := by
      intro j _
      by_cases hj : j = gameId
      · subst hj
        rw [joinState_games_self]
      · rw [joinState_games_other env s gameId j hj]
    have hcard : wonCount (joinState env s gameId) a = wonCount s a :=
      filter_card_congr s.gameCounter (fun j => (s.games j).winner = a)
        (fun j => ((joinState env s gameId).games j).winner = a) hagree
    rw [hpw, hcard]
    exact inv.wins_count a ha

theorem inv_move (env : Env) (s : SysState) (gameId position : Nat) (s' : SysState)
    (ev : List Event) (hs : env.sender ≠ 0) (inv : SysInv s)
    (hok : makeMove env s gameId position = Except.ok (s', ev)) : SysInv s' := by
  obtain ⟨h1, h2, h3, h4, h5, h6, hbr⟩ := makeMove_ok_cases env s gameId position s' ev hok
  have hlt : gameId < s.gameCounter := (inv.counter_iff gameId).mp h1
  obtain ⟨hp2, hpp, hturn, hnwX, hnwO⟩ := (inv.game_inv gameId).inprog h2
  have hw0 : (s.games gameId).winner = 0 := by
    by_contra hw
    have hfin := (inv.game_inv gameId).winner_iff.mp hw
    rw [h2] at hfin
    exact GameState.noConfusion hfin
  rcases hbr with ⟨hw, rfl⟩ | ⟨hw, hf, rfl⟩ | ⟨hw, hf, rfl⟩
  · -- winning move
    constructor
    · intro g
      by_cases hg : g = gameId
      · subst hg
        rw [winState_games_self]
        exact inv.counter_iff g
      · rw [winState_games_other env s gameId position g hg]
        exact inv.counter_iff g
    · intro g
      by_cases hg : g = gameId
      · subst hg
        rw [winState_games_self]
        constructor
        · show env.sender ≠ 0 ↔ GameState.Finished = GameState.Finished
          simp [hs]
        · intro _
          exact ⟨h3, hpp, hw⟩
        · intro hd
          exact absurd hd (by simp)
        · intro hp
          exact absurd hp (by simp)
        · intro hwt
          exact absurd hwt (by simp)
      · rw [winState_games_other env s gameId position g hg]
        exact inv.game_inv g
    · intro a ha
      have hpl : (winState env s gameId position).playerGamesPlayed a =
          s.playerGamesPlayed a := rfl
      have hagree : ∀ j, j < s.gameCounter →
          (joinedWith (winState env s gameId position) a j ↔ joinedWith s a j) := by
        intro j _
        by_cases hj : j = gameId
        · subst hj
          unfold joinedWith
          rw [winState_games_self]
          constructor
          · rintro ⟨hor, _⟩
            refine ⟨hor, ?_⟩
            rw [h2]
            simp
          · rintro ⟨hor, _⟩
            exact ⟨hor, by simp⟩
        · unfold joinedWith
          rw [winState_games_other env s gameId position j hj]
      have hcard : participCount (winState env s gameId position) a = participCount s a :=
        filter_card_congr s.gameCounter (fun j => joinedWith s a j)
          (fun j => joinedWith (winState env s gameId position) a j) hagree
      rw [hpl, hcard]
      exact inv.played_count a ha
    · intro a ha
      by_cases has : a = env.sender
      · have hq : ((winState env s gameId position).games gameId).winner = a := by
          rw [winState_games_self]
          exact has.symm
        have hnp : ¬ (s.games gameId).winner = a := by
          rw [hw0]
          intro h
          exact hs (has.symm.trans h.symm)
        have hagree : ∀ j, j < s.gameCounter → j ≠ gameId →
            (((winState env s gameId position).games j).winner = a ↔
              (s.games j).winner = a) := by
          intro j _ hj
          rw [winState_games_other env s gameId position j hj]
        have hflip : wonCount (winState env s gameId position) a = wonCount s a + 1 :=
          filter_card_flip s.gameCounter gameId (fun j => (s.games j).winner = a)
            (fun j => ((winState env s gameId position).games j).winner = a)
            hlt hagree hnp hq
        have hpw : (winState env s gameId position).playerWins a = s.playerWins a + 1 := by
          show (if a = env.sender then s.playerWins env.sender + 1 else s.playerWins a) =
            s.playerWins a + 1
          rw [if_pos has, ← has]
        rw [hpw, hflip, inv.wins_count a ha]
      · have hq : ¬ ((winState env s gameId position).games gameId).winner = a := by
          rw [winState_games_self]
          intro h
          exact has h.symm
        have hnp : ¬ (s.games gameId).winner = a := by
          rw [hw0]
          intro h
          exact ha h.symm
        have hagree : ∀ j, j < s.gameCounter →
            (((winState env s gameId position).games j).winner = a ↔
              (s.games j).winner = a) := by
          intro j hj
          by_cases hj' : j = gameId
          · subst hj'
            exact ⟨fun hh => absurd hh hq, fun hh => absurd hh hnp⟩
          · rw [winState_games_other env s gameId position j hj']
        have hcard : wonCount (winState env s gameId position) a = wonCount s a :=
          filter_card_congr s.gameCounter (fun j => (s.games j).winner = a)
            (fun j => ((winState env s gameId position).games j).winner = a) hagree
        have hpw : (winState env s gameId position).playerWins a = s.playerWins a := by
          show (if a = env.sender then s.playerWins env.sender + 1 else s.playerWins a) =
            s.playerWins a
          rw [if_neg has]
        rw [hpw, hcard]
        exact inv.wins_count a ha
  · -- drawing move
    obtain ⟨hX', hO'⟩ := moveBoard_no_other_win env s gameId position hnwX hnwO hw
    constructor
    · intro g
      by_cases hg : g = gameId
      · subst hg
        rw [drawState_games_self]
        exact inv.counter_iff g
      · rw [drawState_games_other env s gameId position g hg]
        exact inv.counter_iff g
    · intro g
      by_cases hg : g = gameId
      · subst hg
        rw [drawState_games_self]
        constructor
        · show (s.games g).winner ≠ 0 ↔ GameState.Draw = GameState.Finished
          simp [hw0]
        · intro hfin
          exact absurd hfin (by simp)
        · intro _
          exact ⟨hf, hX', hO'⟩
        · intro hp
          exact absurd hp (by simp)
        · intro hwt
          exact absurd hwt (by simp)
      · rw [drawState_games_other env s gameId position g hg]
        exact inv.game_inv g
    · intro a ha
      have hpl : (drawState env s gameId position).playerGamesPlayed a =
          s.playerGamesPlayed a := rfl
      have hagree : ∀ j, j < s.gameCounter →
          (joinedWith (drawState env s gameId position) a j ↔ joinedWith s a j) := by
        intro j _
        by_cases hj : j = gameId
        · subst hj
          unfold joinedWith
          rw [drawState_games_self]
          constructor
          · rintro ⟨hor, _⟩
            refine ⟨hor, ?_⟩
            rw [h2]
            simp
          · rintro ⟨hor, _⟩
            exact ⟨hor, by simp⟩
        · unfold joinedWith
          rw [drawState_games_other env s gameId position j hj]
      have hcard : participCount (drawState env s gameId position) a = participCount s a :=
        filter_card_congr s.gameCounter (fun j => joinedWith s a j)
          (fun j => joinedWith (drawState env s gameId position) a j) hagree
      rw [hpl, hcard]
      exact inv.played_count a ha
    · intro a ha
      have hpw : (drawState env s gameId position).playerWins a = s.playerWins a := rfl
      have hagree : ∀ j, j < s.gameCounter →
          (((drawState env s gameId position).games j).winner = a ↔
            (s.games j).winner = a) := by
        intro j _
        by_cases hj : j = gameId
        · subst hj
          rw [drawState_games_self]
        · rw [drawState_games_other env s gameId position j hj]
      have hcard : wonCount (drawState env s gameId position) a = wonCount s a :=
        filter_card_congr s.gameCounter (fun j => (s.games j).winner = a)
          (fun j => ((drawState env s gameId position).games j).winner = a) hagree
      rw [hpw, hcard]
      exact inv.wins_count a ha
  · -- ordinary move, turn switches
    obtain ⟨hX', hO'⟩ := moveBoard_no_other_win env s gameId position hnwX hnwO hw
    constructor
    · intro g
      by_cases hg : g = gameId
      · subst hg
        rw [switchState_games_self]
        exact inv.counter_iff g
      · rw [switchState_games_other env s gameId position g hg]
        exact inv.counter_iff g
    · intro g
      by_cases hg : g = gameId
      · subst hg
        rw [switchState_games_self]
        constructor
        · show (s.games g).winner ≠ 0 ↔ (s.games g).state = GameState.Finished
          exact (inv.game_inv g).winner_iff
        · intro hfin
          have hfin' : (s.games g).state = GameState.Finished := hfin
          rw [h2] at hfin'
          exact GameState.noConfusion hfin'
        · intro hd
          have hd' : (s.games g).state = GameState.Draw := hd
          rw [h2] at hd'
          exact GameState.noConfusion hd'
        · intro _
          refine ⟨hp2, hpp, ?_, hX', hO'⟩
          by_cases hsp : env.sender = (s.games g).player1
          · refine Or.inr ?_
            show (if env.sender = (s.games g).player1 then (s.games g).player2
                  else (s.games g).player1) = (s.games g).player2
            rw [if_pos hsp]
          · refine Or.inl ?_
            show (if env.sender = (s.games g).player1 then (s.games g).player2
                  else (s.games g).player1) = (s.games g).player1
            rw [if_neg hsp]
        · intro hwt
          have hwt' : (s.games g).state = GameState.WaitingForPlayer := hwt
          rw [h2] at hwt'
          exact GameState.noConfusion hwt'
      · rw [switchState_games_other env s gameId position g hg]
        exact inv.game_inv g
    · intro a ha
      have hpl : (switchState env s gameId position).playerGamesPlayed a =
          s.playerGamesPlayed a := rfl
      have hagree : ∀ j, j < s.gameCounter →
          (joinedWith (switchState env s gameId position) a j ↔ joinedWith s a j) := by
        intro j _
        by_cases hj : j = gameId
        · subst hj
          unfold joinedWith
          rw [switchState_games_self]
        · unfold joinedWith
          rw [switchState_games_other env s gameId position j hj]
      have hcard : participCount (switchState env s gameId position) a = participCount s a :=
        filter_card_congr s.gameCounter (fun j => joinedWith s a j)
          (fun j => joinedWith (switchState env s gameId position) a j) hagree
      rw [hpl, hcard]
      exact inv.played_count a ha
    · intro a ha
      have hpw : (switchState env s gameId position).playerWins a = s.playerWins a := rfl
      have hagree : ∀ j, j < s.gameCounter →
          (((switchState env s gameId position).games j).winner = a ↔
            (s.games j).winner = a) := by
        intro j _
        by_cases hj : j = gameId
        · subst hj
          rw [switchState_games_self]
        · rw [switchState_games_other env s gameId position j hj]
      have hcard : wonCount (switchState env s gameId position) a = wonCount s a :=
        filter_card_congr s.gameCounter (fun j => (s.games j).winner = a)
          (fun j => ((switchState env s gameId position).games j).winner = a) hagree
      rw [hpw, hcard]
      exact inv.wins_count a ha

/-- Every reachable storage satisfies the invariant. -/
theorem inv_reachable (s : SysState) (h : Reachable s) : SysInv s := by
  induction h with
  | init => exact inv_init
  | step hr hstep ih =>
    cases hstep with
    | create env hs => exact inv_create env _ hs ih
    | join env gameId ev hs hok => exact inv_join env _ gameId _ ev hs ih hok
    | move env gameId position ev hs hok =>
      exact inv_move env _ gameId position _ ev hs ih hok

/-! ## Claims about reachable storage -/

/-- C3: in every storage reachable by any sequence of calls, for every
game: `winner` is set (non-sentinel) iff `state == Finished`; a
`Finished` game's winner is one of its two players and the winner's mark
completes a line; a `Draw` game's board is full and neither mark has
three in a line. -/
theorem reachable_winner_state_invariant (s : SysState) (h : Reachable s) (gameId : Nat) :
    ((s.games gameId).winner ≠ 0 ↔ (s.games gameId).state = GameState.Finished) ∧
    ((s.games gameId).state = GameState.Finished →
      ((s.games gameId).winner = (s.games gameId).player1 ∨
       (s.games gameId).winner = (s.games gameId).player2) ∧
      _checkWinner (s.games gameId).board (markOf (s.games gameId) (s.games gameId).winner)) ∧
    ((s.games gameId).state = GameState.Draw →
      _isBoardFull (s.games gameId).board ∧
      ¬ _checkWinner (s.games gameId).board CellState.X ∧
      ¬ _checkWinner (s.games gameId).board CellState.O) := by
  have inv := inv_reachable s h
  refine ⟨(inv.game_inv gameId).winner_iff, ?_, (inv.game_inv gameId).draw⟩
  intro hfin
  obtain ⟨hor, _, hcw⟩ := (inv.game_inv gameId).finished hfin
  exact ⟨hor, hcw⟩

/-- Witness for C3 at the initial storage. -/
theorem reachable_winner_state_invariant_witness :
    ((initState.games 0).winner ≠ 0 ↔ (initState.games 0).state = GameState.Finished) ∧
    ((initState.games 0).state = GameState.Finished →
      ((initState.games 0).winner = (initState.games 0).player1 ∨
       (initState.games 0).winner = (initState.games 0).player2) ∧
      _checkWinner (initState.games 0).board
        (markOf (initState.games 0) (initState.games 0).winner)) ∧
    ((initState.games 0).state = GameState.Draw →
      _isBoardFull (initState.games 0).board ∧
      ¬ _checkWinner (initState.games 0).board CellState.X ∧
      ¬ _checkWinner (initState.games 0).board CellState.O) :=
  reachable_winner_state_invariant initState Reachable.init 0

/-- C7: on every reachable storage and every non-sentinel identity,
`playerGamesPlayed` equals the number of allocated games with that
identity as a participant (creator or joiner) that have left the
waiting room — so it is bumped exactly once per game, at join time, for
both participants, and a created-but-never-joined game contributes zero
to both of its creator's counters; `playerWins` equals the number of
games whose recorded winner is that identity — bumped by one only on a
terminal win and only for the winning identity. -/
theorem player_counters_characterization (s : SysState) (h : Reachable s)
    (a : Addr) (ha : a ≠ 0) :
    s.playerGamesPlayed a = participCount s a ∧ s.playerWins a = wonCount s a := by
  have inv := inv_reachable s h
  exact ⟨inv.played_count a ha, inv.wins_count a ha⟩

/-- Witness for C7 at the initial storage. -/
theorem player_counters_characterization_witness :
    initState.playerGamesPlayed 1 = participCount initState 1 ∧
    initState.playerWins 1 = wonCount initState 1 :=
  player_counters_characterization initState Reachable.init 1 (by decide)

/-- C9: for every gameId never allocated by `createGame`, the Registry
read reports NotFound: the lookup yields the not-found sentinel (the
record with `player1 = address(0)`, the exact criterion the contract's
own operations test), and both mutating operations on that id revert
with `GameNotFound`. -/
theorem registry_get_never_created_notfound (s : SysState) (h : Reachable s) (gameId : Nat)
    (hnc : s.gameCounter ≤ gameId) :
    registryGet s gameId = none ∧
    (∀ env, joinGame env s gameId = Except.error Err.GameNotFound) ∧
    (∀ env position, makeMove env s gameId position = Except.error Err.GameNotFound) := by
  have inv := inv_reachable s h
  have hp1 : (s.games gameId).player1 = 0 := by
    by_contra hne
    exact absurd ((inv.counter_iff gameId).mp hne) (by omega)
  refine ⟨?_, fun env => joinGame_notfound env s gameId hp1,
    fun env position => makeMove_notfound env s gameId position hp1⟩
  unfold registryGet
  rw [if_pos hp1]

/-- Witness for C9: game 5 on the initial storage. -/
theorem registry_get_never_created_notfound_witness :
    registryGet initState 5 = none ∧
    (∀ env, joinGame env initState 5 = Except.error Err.GameNotFound) ∧
    (∀ env position, makeMove env initState 5 position = Except.error Err.GameNotFound) :=
  registry_get_never_created_notfound initState Reachable.init 5 (by decide)

/-- C4: `makeMove` validates its preconditions in the claimed order —
no record (`GameNotFound`), not in progress, not a participant, not
your turn, position out of range, cell occupied — and when several are
violated it reports the first: on every reachable storage its error
agrees with `specMoveFirstError`, which tests exactly those conditions
in exactly that order. -/
theorem makeMove_error_priority (env : Env) (s : SysState) (gameId position : Nat)
    (h : Reachable s) :
    callError (makeMove env s gameId position) = specMoveFirstError env s gameId position := by
  have inv := inv_reachable s h
  by_cases h1 : (s.games gameId).player1 = 0
  · have hge : s.gameCounter ≤ gameId := by
      by_contra hlt
      exact absurd ((inv.counter_iff gameId).mpr (by omega)) (by simp [h1])
    rw [makeMove_notfound env s gameId position h1]
    unfold specMoveFirstError
    rw [if_pos hge]
    rfl
  · have hlt : gameId < s.gameCounter := (inv.counter_iff gameId).mp h1
    have hnge : ¬ s.gameCounter ≤ gameId := by omega
    unfold specMoveFirstError
    rw [if_neg hnge]
    by_cases h2 : (s.games gameId).state ≠ GameState.InProgress
    · rw [makeMove_notinprogress env s gameId position h1 h2, if_pos h2]
      rfl
    rw [if_neg h2]
    push_neg at h2
    by_cases h4 : env.sender ≠ (s.games gameId).player1 ∧ env.sender ≠ (s.games gameId).player2
    · rw [makeMove_notaplayer env s gameId position h1 h2 h4, if_pos h4]
      rfl
    rw [if_neg h4]
    by_cases h5 : env.sender ≠ (s.games gameId).currentTurn
    · rw [makeMove_notyourturn env s gameId position h1 h2 h4 h5, if_pos h5]
      rfl
    rw [if_neg h5]
    by_cases h6 : 9 ≤ position
    · rw [makeMove_invalidposition env s gameId position h1 h2 h4 h5 h6,
          if_pos (show ¬ position ≤ 8 by omega)]
      rfl
    rw [if_neg (show ¬ ¬ position ≤ 8 by omega)]
    by_cases h7 : (s.games gameId).board position ≠ CellState.Empty
    · rw [makeMove_cellnotempty env s gameId position h1 h2 h4 h5 h6 h7, if_pos h7]
      rfl
    rw [if_neg h7]
    by_cases hwin : _checkWinner (moveBoard env s gameId position)
        (markOf (s.games gameId) env.sender)
    · rw [makeMove_win env s gameId position h1 h2 h4 h5 h6 h7 hwin]
      rfl
    by_cases hfull : _isBoardFull (moveBoard env s gameId position)
    · rw [makeMove_draw env s gameId position h1 h2 h4 h5 h6 h7 hwin hfull]
      rfl
    · rw [makeMove_switch env s gameId position h1 h2 h4 h5 h6 h7 hwin hfull]
      rfl

/-- Witness for C4: a move on the initial storage (both sides report
`GameNotFound` first even though position 9 is also out of range). -/
theorem makeMove_error_priority_witness :
    callError (makeMove ⟨1, 0⟩ initState 0 9) = specMoveFirstError ⟨1, 0⟩ initState 0 9 :=
  makeMove_error_priority ⟨1, 0⟩ initState 0 9 Reachable.init

end TicTacToe
